import Mathlib

/-!
Shallow embedding of `precastro.py` (precision astronomy time routines).

Floats are modelled as real numbers; Python exceptions as an error type
returned through `Except`; the external SOFA/NOVAS kernel routines (C
extension `_precastro`, not part of the Python source) as function
parameters supplying the status code and numeric outputs of each call.
-/

namespace Precastro

/-- Errors raised by the Python code: `ValueError` (malformed input,
the spec's `InvalidArgument`), `SofaError (func, code)`,
`NovasError (func)`, and `UnsupportedTimescaleError (timescale)`. -/
inductive PAErr where
  | valueError (msg : String)
  | sofaError (func : String) (code : Int)
  | novasError (func : String)
  | unsupportedTimescale (timescale : String)
  deriving DecidableEq

/-- A fully-initialized `Time`: two Julian Date components and a
timescale tag, as stored by the `Time` class. -/
structure Time where
  jd1 : ℝ
  jd2 : ℝ
  timescale : String

/-- `_oktimescales = frozenset('TAI UTC UT1 TT TCG TCB TDB'.split())`. -/
def oktimescales : List String := ["TAI", "UTC", "UT1", "TT", "TCG", "TCB", "TDB"]

/-- `C_AUDAY = 173.1446326846693`, the speed of light in AU/day. -/
noncomputable def C_AUDAY : ℝ := 173.1446326846693

/-- `_checksofacode(func, code, dubiousok)`: mirrors the Python
`if code == 1 and not dubiousok: raise ... elif code: raise ...`. -/
def checksofacode (func : String) (code : Int) (dubiousok : Bool) : Except PAErr Unit :=
  if code = 1 ∧ ¬(dubiousok = true) then .error (.sofaError func code)
  else if code ≠ 0 then .error (.sofaError func code)
  else .ok ()

/-- The SOFA kernel routines used by `asTT`: each takes the two JD
components and returns a status code and two output components. -/
structure SofaKernel where
  taitt : ℝ → ℝ → Int × ℝ × ℝ
  utctai : ℝ → ℝ → Int × ℝ × ℝ

/-- `Time.fromJD`: validate the timescale, then `jd1 = jd, jd2 = 0.0`. -/
def fromJD (jd : ℝ) (timescale : String) : Except PAErr Time :=
  if timescale ∈ oktimescales then
    .ok { jd1 := jd, jd2 := 0, timescale := timescale }
  else .error (.valueError ("illegal timescale name " ++ timescale))

/-- `Time.fromMJD`: validate the timescale, then `jd1 = 2400000.5, jd2 = mjd`. -/
noncomputable def fromMJD (mjd : ℝ) (timescale : String) : Except PAErr Time :=
  if timescale ∈ oktimescales then
    .ok { jd1 := 2400000.5, jd2 := mjd, timescale := timescale }
  else .error (.valueError ("illegal timescale name " ++ timescale))

/-- `Time.asJD`: `jd1 + jd2`. -/
noncomputable def asJD (t : Time) : ℝ := t.jd1 + t.jd2

/-- `Time.asMJD`: `(jd1 - 2400000.5) + jd2`. -/
noncomputable def asMJD (t : Time) : ℝ := (t.jd1 - 2400000.5) + t.jd2

/-- `Time.asTT(dubiousok)`: identity copy for TT; TAI and UTC go through
the kernel (`iauTaitt`, `iauUtctai` then `iauTaitt`), each status checked
by `_checksofacode`; any other timescale raises
`UnsupportedTimescaleError(self.timescale)`. -/
def asTT (k : SofaKernel) (t : Time) (dubiousok : Bool) : Except PAErr Time :=
  if t.timescale = "TT" then
    .ok { jd1 := t.jd1, jd2 := t.jd2, timescale := "TT" }
  else if t.timescale = "TAI" then
    match k.taitt t.jd1 t.jd2 with
    | (code, j1, j2) =>
      match checksofacode "taitt" code dubiousok with
      | .error e => .error e
      | .ok _ => .ok { jd1 := j1, jd2 := j2, timescale := "TT" }
  else if t.timescale = "UTC" then
    match k.utctai t.jd1 t.jd2 with
    | (code1, a1, a2) =>
      match checksofacode "utctai" code1 dubiousok with
      | .error e => .error e
      | .ok _ =>
        match k.taitt a1 a2 with
        | (code2, b1, b2) =>
          match checksofacode "taitt" code2 dubiousok with
          | .error e => .error e
          | .ok _ => .ok { jd1 := b1, jd2 := b2, timescale := "TT" }
  else .error (.unsupportedTimescale t.timescale)

/-- `Time.asTDB(ttok)`: identity copy for TDB; otherwise raise
`UnsupportedTimescaleError` unless `ttok`, in which case return
`self.asTT()` (with the default `dubiousok=False`). -/
def asTDB (k : SofaKernel) (t : Time) (ttok : Bool) : Except PAErr Time :=
  if t.timescale = "TDB" then
    .ok { jd1 := t.jd1, jd2 := t.jd2, timescale := "TDB" }
  else if ttok then asTT k t false
  else .error (.unsupportedTimescale t.timescale)

/-- The mutable attribute state of a `Time` object: the class attributes
`jd1`, `jd2` and `timescale` all start out as `None`. -/
structure TimeState where
  jd1 : Option ℝ
  jd2 : Option ℝ
  timescale : Option String

/-- `Time.fromcalendar(..., timescale, dubiousok)`: validate the
timescale, then assign `self.jd1, self.jd2` from the kernel call
`iauDtf2d` (whose status code and two outputs are the `kres` argument),
check the status with `_checksofacode('dtf2d', code, dubiousok)`, and
only then assign `self.timescale`. The result pairs the final attribute
state with the exception propagated, if any. -/
def fromcalendar (pre : TimeState) (timescale : String) (dubiousok : Bool)
    (kres : Int × ℝ × ℝ) : TimeState × Option PAErr :=
  if timescale ∈ oktimescales then
    match checksofacode "dtf2d" kres.1 dubiousok with
    | .error e => ({ pre with jd1 := some kres.2.1, jd2 := some kres.2.2 }, some e)
    | .ok _ =>
      ({ jd1 := some kres.2.1, jd2 := some kres.2.2, timescale := some timescale }, none)
  else (pre, some (.valueError ("illegal timescale name " ++ timescale)))

/-- `_ephemnums`: the fixed body-name → integer-code table for the
ephemeris kernel. -/
def ephemnums : List (String × ℕ) :=
  [("mercury", 1), ("venus", 2), ("earth", 3), ("mars", 4), ("jupiter", 5),
   ("saturn", 6), ("uranus", 7), ("neptune", 8), ("pluto", 9), ("sun", 10),
   ("moon", 11)]

/-- `EphemObject.__init__(name)`: raise `ValueError` when the name is
not in `_ephemnums`; otherwise call the kernel `make_object` with the
body code (its status is the `makeObject` argument), raising
`NovasError` on nonzero status, and keep the code. -/
def EphemObject_init (makeObject : ℕ → Int) (name : String) : Except PAErr ℕ :=
  match ephemnums.lookup name with
  | none => .error (.valueError ("unrecognized ephemeris object name " ++ name))
  | some num =>
    if makeObject num ≠ 0 then .error (.novasError "make_object") else .ok num

/-- `EphemObject.ephem(time, ttok)`: convert the time with
`asTDB(ttok)`, then call the kernel `ephemeris_tweak` on the converted
components (the `ephk` argument returns its status, position and
velocity), raising `NovasError` on nonzero status. -/
def ephem (k : SofaKernel) (ephk : ℝ → ℝ → Int × (ℝ × ℝ × ℝ) × (ℝ × ℝ × ℝ))
    (time : Time) (ttok : Bool) : Except PAErr ((ℝ × ℝ × ℝ) × (ℝ × ℝ × ℝ)) :=
  match asTDB k time ttok with
  | .error e => .error e
  | .ok tdb =>
    match ephk tdb.jd1 tdb.jd2 with
    | (ret, pv) => if ret ≠ 0 then .error (.novasError "ephemeris") else .ok pv

/-- `Time.asBJD(obj, ttok)`: build `EphemObject('earth')`, convert self
with `asTDB(ttok)`, form the unit direction from the object's (ra, dec),
query the Earth position via `ephem`, and add the dot product divided by
`C_AUDAY` to `jd2` of the converted time. -/
noncomputable def asBJD (k : SofaKernel) (makeObject : ℕ → Int)
    (ephk : ℝ → ℝ → Int × (ℝ × ℝ × ℝ) × (ℝ × ℝ × ℝ))
    (t : Time) (ra dec : ℝ) (ttok : Bool) : Except PAErr Time :=
  match EphemObject_init makeObject "earth" with
  | .error e => .error e
  | .ok _ =>
    match asTDB k t ttok with
    | .error e => .error e
    | .ok tdb =>
      match ephem k ephk tdb ttok with
      | .error e => .error e
      | .ok pv =>
        .ok { jd1 := tdb.jd1,
              jd2 := tdb.jd2 +
                (pv.1.1 * (Real.cos dec * Real.cos ra) +
                 pv.1.2.1 * (Real.cos dec * Real.sin ra) +
                 pv.1.2.2 * Real.sin dec) / C_AUDAY,
              timescale := tdb.timescale }

/-- The output of the kernel call `iauD2dtf_tweak`: a status code, the
calendar year, month, day, and the hour/minute/second/fraction fields
(the kernel has already rounded and carried to the requested
precision). -/
structure D2dtfRes where
  code : Int
  iy : Int
  im : ℕ
  iday : ℕ
  ih : ℕ
  imin : ℕ
  isec : ℕ
  ifrac : ℕ

/-- Zero-padded decimal rendering of a nonneg integer to a minimum
width, as Python's `'%0*d'`. -/
def padDec (w n : ℕ) : String :=
  ⟨List.replicate (w - (Nat.repr n).length) '0' ++ (Nat.repr n).data⟩

/-- The fixed part `'%d/%02d/%02d %02d:%02d:%02d'` of the
`fmtcalendar` output. -/
def fmtbase (r : D2dtfRes) : String :=
  Int.repr r.iy ++ "/" ++ padDec 2 r.im ++ "/" ++ padDec 2 r.iday ++ " " ++
  padDec 2 r.ih ++ ":" ++ padDec 2 r.imin ++ ":" ++ padDec 2 r.isec

/-- `Time.fmtcalendar(precision, dubiousok)`: check the kernel status
with `_checksofacode('d2dtf', ...)`, then render
`'%d/%02d/%02d %02d:%02d:%02d%s'` where the last piece is empty when
`precision < 1` and `'.%0*d' % (precision, fraction)` otherwise. -/
def fmtcalendar (r : D2dtfRes) (prec : Int) (dubiousok : Bool) : Except PAErr String :=
  match checksofacode "d2dtf" r.code dubiousok with
  | .error e => .error e
  | .ok _ =>
    if prec < 1 then .ok (fmtbase r)
    else .ok (fmtbase r ++ ("." ++ padDec prec.toNat r.ifrac))

/-- Helper: a successful `asTT` always carries timescale `"TT"`. -/
theorem asTT_ok_timescale (k : SofaKernel) (t : Time) (d : Bool) (t' : Time)
    (h : asTT k t d = .ok t') : t'.timescale = "TT" := by
  unfold asTT at h
  repeat' split at h
  all_goals first
    | (cases h; rfl)
    | cases h

/-- Helper: a successful `asTDB` result is a fixed point of `asTDB`
(its timescale is TDB or TT, and re-converting copies it unchanged). -/
theorem asTDB_ok_fixed (k : SofaKernel) (t : Time) (b : Bool) (t' : Time)
    (h : asTDB k t b = .ok t') : asTDB k t' b = .ok t' := by
  unfold asTDB at h
  split at h
  · cases h
    simp [asTDB]
  · split at h
    · have hts := asTT_ok_timescale k t false t' h
      have hne : t'.timescale ≠ "TDB" := by rw [hts]; decide
      rw [asTDB, if_neg hne, if_pos (by assumption), asTT, if_pos hts]
      cases t'
      simp_all
    · cases h

/-- Helper: `_checksofacode` raises `SofaError(func, code)` for every
nonzero code, whatever `dubiousok` is: when `code == 1` and `dubiousok`
is true the first branch is skipped but the `elif code:` branch still
fires. -/
theorem checksofacode_nonzero (f : String) (code : Int) (d : Bool) (h : code ≠ 0) :
    checksofacode f code d = .error (.sofaError f code) := by
  unfold checksofacode
  split
  · rfl
  · simp [h]

/-- C1: `fromcalendar` with the kernel reporting the dubious-year status
code 1 raises `SofaError('dtf2d', 1)` even when `dubiousok=True`: the
`elif code:` branch of `_checksofacode` catches code 1 regardless of the
flag, so the opt-in documented for `dubiousok` never takes effect. -/
theorem fromcalendar_dubiousok_ignored :
    fromcalendar ⟨none, none, none⟩ "UTC" true (1, 0, 0) =
      ({ jd1 := some 0, jd2 := some 0, timescale := none },
        some (.sofaError "dtf2d" 1)) := rfl

/-- C10: whenever `fromcalendar` raises because of a nonzero kernel
status, the final state keeps the pre-call `timescale` (it is assigned
only after the status check) while `jd1` and `jd2` have already been
overwritten with the kernel outputs. -/
theorem fromcalendar_error_state (pre : TimeState) (ts : String) (d : Bool)
    (code : Int) (j1 j2 : ℝ) (hts : ts ∈ oktimescales) (hcode : code ≠ 0) :
    fromcalendar pre ts d (code, j1, j2) =
      ({ jd1 := some j1, jd2 := some j2, timescale := pre.timescale },
        some (.sofaError "dtf2d" code)) := by
  rw [fromcalendar, if_pos hts]
  rw [checksofacode_nonzero "dtf2d" code d hcode]

/-- C10 witness: a failed conversion (status -1) overwrites jd1, jd2 but
keeps the old timescale tag 'TT'. -/
theorem fromcalendar_error_state_witness :
    fromcalendar ⟨some 1, some 2, some "TT"⟩ "UTC" false (-1, 3, 4) =
      ({ jd1 := some 3, jd2 := some 4, timescale := some "TT" },
        some (.sofaError "dtf2d" (-1))) :=
  fromcalendar_error_state ⟨some 1, some 2, some "TT"⟩ "UTC" false (-1) 3 4
    (by decide) (by decide)

/-- C5: for every float x and valid timescale name, `fromJD` sets
`jd1 = x` and `jd2 = 0`, and the round-trip
`Time().fromJD(x, 'TT').asJD()` equals x exactly (`asJD` returns
`jd1 + jd2`, and adding 0.0 loses no precision). -/
theorem fromJD_roundtrip (x : ℝ) (ts : String) (h : ts ∈ oktimescales) :
    fromJD x ts = .ok { jd1 := x, jd2 := 0, timescale := ts } ∧
    asJD { jd1 := x, jd2 := 0, timescale := ts } = x := by
  constructor
  · rw [fromJD, if_pos h]
  · simp [asJD]

/-- C5 witness: the round-trip at x = 3, timescale 'TT'. -/
theorem fromJD_roundtrip_witness :
    fromJD 3 "TT" = .ok { jd1 := 3, jd2 := 0, timescale := "TT" } ∧
    asJD { jd1 := 3, jd2 := 0, timescale := "TT" } = 3 :=
  fromJD_roundtrip 3 "TT" (by decide)

/-- C6: for every float m, `fromMJD` sets `jd1 = 2400000.5` and
`jd2 = m`, so `asMJD` returns m and `asJD` returns m + 2400000.5. -/
theorem fromMJD_roundtrip (m : ℝ) (ts : String) (h : ts ∈ oktimescales) :
    fromMJD m ts = .ok { jd1 := 2400000.5, jd2 := m, timescale := ts } ∧
    asMJD { jd1 := 2400000.5, jd2 := m, timescale := ts } = m ∧
    asJD { jd1 := 2400000.5, jd2 := m, timescale := ts } = m + 2400000.5 := by
  refine ⟨by rw [fromMJD, if_pos h], by simp [asMJD], by simp [asJD]; ring⟩

/-- C6 witness: the round-trip at m = 7, timescale 'TT'. -/
theorem fromMJD_roundtrip_witness :
    fromMJD 7 "TT" = .ok { jd1 := 2400000.5, jd2 := 7, timescale := "TT" } ∧
    asMJD { jd1 := 2400000.5, jd2 := 7, timescale := "TT" } = 7 ∧
    asJD { jd1 := 2400000.5, jd2 := 7, timescale := "TT" } = 7 + 2400000.5 :=
  fromMJD_roundtrip 7 "TT" (by decide)

/-- C7: `asTT` on a Time already in timescale 'TT' returns a new Time
whose jd1, jd2 and timescale equal those of the input (a value-identical
copy); the input is a read-only argument of the pure embedding, hence
left unmodified. -/
theorem asTT_tt_copy (k : SofaKernel) (t : Time) (d : Bool)
    (h : t.timescale = "TT") :
    asTT k t d = .ok { jd1 := t.jd1, jd2 := t.jd2, timescale := t.timescale } := by
  rw [asTT, if_pos h, h]

/-- C7 witness: copying a TT time at jd1 = 1, jd2 = 2. -/
theorem asTT_tt_copy_witness :
    asTT ⟨fun a b => (0, a, b), fun a b => (0, a, b)⟩ ⟨1, 2, "TT"⟩ false =
      .ok { jd1 := 1, jd2 := 2, timescale := "TT" } :=
  asTT_tt_copy ⟨fun a b => (0, a, b), fun a b => (0, a, b)⟩ ⟨1, 2, "TT"⟩ false rfl

/-- C4: `asTT` on any Time whose timescale is not TT, TAI or UTC raises
`UnsupportedTimescaleError`, and the error carries the offending
timescale name. -/
theorem asTT_unsupported (k : SofaKernel) (t : Time) (d : Bool)
    (h1 : t.timescale ≠ "TT") (h2 : t.timescale ≠ "TAI") (h3 : t.timescale ≠ "UTC") :
    asTT k t d = .error (.unsupportedTimescale t.timescale) := by
  rw [asTT, if_neg h1, if_neg h2, if_neg h3]

/-- C4 witness: `asTT` on a 'UT1' time fails with the name 'UT1'. -/
theorem asTT_unsupported_witness :
    asTT ⟨fun a b => (0, a, b), fun a b => (0, a, b)⟩ ⟨1, 2, "UT1"⟩ false =
      .error (.unsupportedTimescale "UT1") :=
  asTT_unsupported ⟨fun a b => (0, a, b), fun a b => (0, a, b)⟩ ⟨1, 2, "UT1"⟩ false
    (by decide) (by decide) (by decide)

/-- C2: `asTDB` on a TDB Time returns a copy with identical jd1, jd2 and
timescale 'TDB' (for either value of `ttok`); on a TT-convertible
non-TDB Time, `asTDB` with `ttok = true` only ever returns a Time tagged
'TT' (never relabeled 'TDB'), and with `ttok = false` raises
`UnsupportedTimescaleError`. -/
theorem asTDB_spec (k : SofaKernel) (t : Time) :
    (t.timescale = "TDB" → ∀ b : Bool,
      asTDB k t b = .ok { jd1 := t.jd1, jd2 := t.jd2, timescale := "TDB" }) ∧
    ((t.timescale = "TT" ∨ t.timescale = "TAI" ∨ t.timescale = "UTC") →
      (∀ t' : Time, asTDB k t true = .ok t' → t'.timescale = "TT") ∧
      asTDB k t false = .error (.unsupportedTimescale t.timescale)) := by
  constructor
  · intro h b
    rw [asTDB, if_pos h]
  · intro h
    have hne : t.timescale ≠ "TDB" := by
      rcases h with h | h | h <;> rw [h] <;> decide
    constructor
    · intro t' h'
      rw [asTDB, if_neg hne] at h'
      simp only [if_true] at h'
      exact asTT_ok_timescale k t false t' h'
    · rw [asTDB, if_neg hne]
      simp

/-- C2 witness: a TDB time is copied unchanged; a TT time with
`ttok = false` fails with `UnsupportedTimescale('TT')`. -/
theorem asTDB_spec_witness :
    asTDB ⟨fun a b => (0, a, b), fun a b => (0, a, b)⟩ ⟨1, 2, "TDB"⟩ false =
      .ok { jd1 := 1, jd2 := 2, timescale := "TDB" } ∧
    asTDB ⟨fun a b => (0, a, b), fun a b => (0, a, b)⟩ ⟨1, 2, "TT"⟩ false =
      .error (.unsupportedTimescale "TT") :=
  ⟨(asTDB_spec ⟨fun a b => (0, a, b), fun a b => (0, a, b)⟩ ⟨1, 2, "TDB"⟩).1 rfl false,
   ((asTDB_spec ⟨fun a b => (0, a, b), fun a b => (0, a, b)⟩ ⟨1, 2, "TT"⟩).2
      (Or.inl rfl)).2⟩

/-- C3: on success, `asBJD` adds to the jd2 component of the
TDB/TT-converted time the dot product of the Earth barycentric position
(queried at the converted time) with the unit direction
(cos dec * cos ra, cos dec * sin ra, sin dec), divided by
`C_AUDAY = 173.1446326846693`, leaving jd1 and the timescale tag of the
converted time unchanged. -/
theorem asBJD_correct (k : SofaKernel) (makeObject : ℕ → Int)
    (ephk : ℝ → ℝ → Int × (ℝ × ℝ × ℝ) × (ℝ × ℝ × ℝ))
    (t : Time) (ra dec : ℝ) (ttok : Bool) (tdb : Time)
    (pos vel : ℝ × ℝ × ℝ)
    (hmk : makeObject 3 = 0)
    (hT : asTDB k t ttok = .ok tdb)
    (hE : ephk tdb.jd1 tdb.jd2 = (0, pos, vel)) :
    asBJD k makeObject ephk t ra dec ttok =
      .ok { jd1 := tdb.jd1,
            jd2 := tdb.jd2 +
              (pos.1 * (Real.cos dec * Real.cos ra) +
               pos.2.1 * (Real.cos dec * Real.sin ra) +
               pos.2.2 * Real.sin dec) / C_AUDAY,
            timescale := tdb.timescale } := by
  have hinit : EphemObject_init makeObject "earth" = .ok 3 := by
    simp [EphemObject_init, ephemnums, List.lookup, hmk]
  have hfix : asTDB k tdb ttok = .ok tdb := asTDB_ok_fixed k t ttok tdb hT
  have heph : ephem k ephk tdb ttok = .ok (pos, vel) := by
    unfold ephem
    rw [hfix]
    dsimp only
    rw [hE]
    simp
  unfold asBJD
  rw [hinit]
  dsimp only
  rw [hT]
  dsimp only
  rw [heph]

/-- C3 witness: a TDB time with the Earth at (1, 0, 0) AU and the
object at ra = dec = 0. -/
theorem asBJD_correct_witness :
    asBJD ⟨fun a b => (0, a, b), fun a b => (0, a, b)⟩ (fun _ => 0)
      (fun _ _ => (0, (1, 0, 0), (0, 0, 0))) ⟨5, 6, "TDB"⟩ 0 0 true =
      .ok { jd1 := 5,
            jd2 := 6 + (1 * (Real.cos 0 * Real.cos 0) +
              0 * (Real.cos 0 * Real.sin 0) + 0 * Real.sin 0) / C_AUDAY,
            timescale := "TDB" } :=
  asBJD_correct ⟨fun a b => (0, a, b), fun a b => (0, a, b)⟩ (fun _ => 0)
    (fun _ _ => (0, (1, 0, 0), (0, 0, 0))) ⟨5, 6, "TDB"⟩ 0 0 true
    ⟨5, 6, "TDB"⟩ (1, 0, 0) (0, 0, 0) rfl rfl rfl

/-- Helper: looking up a key absent from an association list gives
nothing. -/
theorem lookup_eq_none_of_not_mem_keys {β : Type} (l : List (String × β))
    (a : String) (h : a ∉ l.map Prod.fst) : l.lookup a = none := by
  induction l with
  | nil => rfl
  | cons p l ih =>
    obtain ⟨k, v⟩ := p
    simp only [List.map_cons, List.mem_cons, not_or] at h
    rw [List.lookup]
    simp only [beq_eq_false_iff_ne.mpr h.1]
    exact ih h.2

/-- Helper: looking up a key of an association list with distinct keys
gives its value. -/
theorem lookup_eq_some_of_mem {β : Type} (l : List (String × β)) (a : String)
    (b : β) (hnd : (l.map Prod.fst).Nodup) (hmem : (a, b) ∈ l) :
    l.lookup a = some b := by
  induction l with
  | nil => simp at hmem
  | cons p l ih =>
    obtain ⟨k, v⟩ := p
    simp only [List.map_cons, List.nodup_cons] at hnd
    rcases List.mem_cons.mp hmem with heq | htl
    · cases heq
      rw [List.lookup]
      simp
    · have hne : a ≠ k := by
        rintro rfl
        exact hnd.1 (List.mem_map.mpr ⟨(a, b), htl, rfl⟩)
      rw [List.lookup]
      simp only [beq_eq_false_iff_ne.mpr hne]
      exact ih hnd.2 htl

/-- C8: constructing an EphemObject with a name outside the fixed body
table fails with `ValueError` (the spec's `InvalidArgument`)
independently of the `make_object` kernel (hence before any kernel
call); for a name in the table, construction proceeds with the
corresponding stable integer body code. -/
theorem ephemobject_init_spec (makeObject : ℕ → Int) (name : String) :
    (name ∉ ephemnums.map Prod.fst →
      EphemObject_init makeObject name =
        .error (.valueError ("unrecognized ephemeris object name " ++ name))) ∧
    (∀ num : ℕ, (name, num) ∈ ephemnums → makeObject num = 0 →
      EphemObject_init makeObject name = .ok num) := by
  constructor
  · intro h
    rw [EphemObject_init, lookup_eq_none_of_not_mem_keys ephemnums name h]
  · intro num hmem hmk
    have hlk : ephemnums.lookup name = some num :=
      lookup_eq_some_of_mem ephemnums name num (by decide) hmem
    rw [EphemObject_init, hlk]
    simp [hmk]

/-- C8 witness: the name 'zeus' fails with ValueError independently of
the kernel; the name 'pluto' yields body code 9. -/
theorem ephemobject_init_spec_witness :
    EphemObject_init (fun _ => 0) "zeus" =
      .error (.valueError ("unrecognized ephemeris object name " ++ "zeus")) ∧
    EphemObject_init (fun _ => 0) "pluto" = .ok 9 :=
  ⟨(ephemobject_init_spec (fun _ => 0) "zeus").1 (by decide),
   (ephemobject_init_spec (fun _ => 0) "pluto").2 9 (by decide) rfl⟩

/-- Helper: the zero-padded decimal of n has length exactly w when n
fits in w digits. -/
theorem padDec_length (w n : ℕ) (hw : 0 < w) (h : n < 10 ^ w) :
    (padDec w n).length = w := by
  have hle : (Nat.repr n).length ≤ w := Nat.repr_length n w hw h
  show (List.replicate (w - (Nat.repr n).length) '0' ++ (Nat.repr n).data).length = w
  rw [List.length_append, List.length_replicate]
  have hdata : (Nat.repr n).data.length = (Nat.repr n).length := rfl
  omega

/-- C9: on kernel success, `fmtcalendar` returns the
'YYYY/MM/DD HH:MM:SS' rendering followed, when precision >= 1, by a
decimal point and exactly `precision` fractional-second digits, and
with the decimal point and fraction omitted entirely when
precision < 1. -/
theorem fmtcalendar_format (r : D2dtfRes) (prec : Int) (d : Bool)
    (h0 : r.code = 0) :
    (prec < 1 → fmtcalendar r prec d = .ok (fmtbase r)) ∧
    (1 ≤ prec → r.ifrac < 10 ^ prec.toNat →
      fmtcalendar r prec d =
        .ok (fmtbase r ++ ("." ++ padDec prec.toNat r.ifrac)) ∧
      (padDec prec.toNat r.ifrac).length = prec.toNat) := by
  have hok : checksofacode "d2dtf" r.code d = .ok () := by
    rw [h0]; rfl
  constructor
  · intro hp
    unfold fmtcalendar
    rw [hok]
    simp [hp]
  · intro hp hf
    have hnp : ¬prec < 1 := by omega
    refine ⟨?_, padDec_length _ _ (by omega) hf⟩
    unfold fmtcalendar
    rw [hok]
    simp [hnp]

/-- C9 witness: the J2000.0 epoch fields at precision 3 yield
'2000/01/01 12:00:00.000', and at precision 0 the fraction is omitted. -/
theorem fmtcalendar_format_witness :
    (fmtcalendar ⟨0, 2000, 1, 1, 12, 0, 0, 0⟩ 3 false =
      .ok (fmtbase ⟨0, 2000, 1, 1, 12, 0, 0, 0⟩ ++ ("." ++ padDec 3 0)) ∧
      (padDec 3 0).length = 3) ∧
    fmtcalendar ⟨0, 2000, 1, 1, 12, 0, 0, 0⟩ 0 false =
      .ok (fmtbase ⟨0, 2000, 1, 1, 12, 0, 0, 0⟩) ∧
    fmtbase ⟨0, 2000, 1, 1, 12, 0, 0, 0⟩ ++ ("." ++ padDec 3 0) =
      "2000/01/01 12:00:00.000" :=
  ⟨(fmtcalendar_format ⟨0, 2000, 1, 1, 12, 0, 0, 0⟩ 3 false rfl).2
      (by decide) (by decide),
   (fmtcalendar_format ⟨0, 2000, 1, 1, 12, 0, 0, 0⟩ 0 false rfl).1 (by decide),
   by decide⟩

end Precastro
